import Mathlib

/-!
# Verification of the pool detection, scoring and portfolio lifecycle engine

This file is a shallow embedding, in Lean 4, of the decision logic of a
yield-farming simulation bot:

* the strategy module (`calculateRiskScore`, `calculateProfitPotential`,
  `enrichPoolData`, `selectOptimalPools`, `validateAndFilterNewPools`,
  `fetchPoolById`) — from `functional_strategy.js`;
* the workflow manager (`checkForExits`, `updateWatchlist`,
  `investFromWatchlist`) — from `workflow_manager.js`;
* the yield calculator (`calculateYield`) — from `yield-calculator.js`.

Modelling conventions:

* JavaScript numbers are modelled as `ℚ` wherever the code only does field
  arithmetic and comparisons, and as `ℝ` where the code uses `Math.log10` or
  `Math.pow` with fractional exponents (`calculateProfitPotential`,
  `calculateYield`).  `Math.round` is `⌊x + 1/2⌋`.
* Pool records are duck-typed in the source.  Numeric pool fields that the
  code reads through `x || 0` (apyReward, volumeUsd1d) or that behave the
  same when the field is absent or `0` under the comparisons actually
  performed (tvlGrowthPct1d via a truthiness guard, sigma against the
  positive default threshold) are modelled as plain `ℚ` with `0` standing
  for an absent field.  String fields compared with `===`/`!==` against a
  nonempty literal (exposure, ilRisk, predictions.predictedClass) are
  modelled as `String` with `""` standing for an absent field.
  `firstSeenAt` is kept as an `Option` because the code tests its presence.
  `apy` and `tvlUsd` are always present in the upstream API data and are
  modelled as plain `ℚ`.
* Network fetches (`fetchAllLlamaPools`, `fetchNewIncentivePools`) are I/O;
  their results enter the model as explicit list parameters (oracles).
  None of the claims concern the classifier inside `fetchNewIncentivePools`,
  so its output (a list of detected-pool records) is the oracle boundary.
* `Array.prototype.sort` is stable in modern engines; it is modelled by
  `List.insertionSort`, which is stable.
* The logger is modelled by the list of severity levels of the entries a
  function emits; `checkForExits` only ever calls `logger.info`.
-/

/-- Strategy configuration object (`defaultConfig` shape in
`functional_strategy.js`). -/
structure Config where
  minAPY : ℚ
  minTVL : ℚ
  minRewardAPY : ℚ
  minRewardAPYRatio : ℚ
  newPoolAgeDays : ℚ
  highAPYThreshold : ℚ
  mediumAPYThreshold : ℚ
  lowTVLThreshold : ℚ
  highRewardRatioThreshold : ℚ
  tvlGrowthPctThreshold : ℚ
  volatilitySigmaThreshold : ℚ
  maxRiskScore : ℕ
  maxPerToken : ℕ
  maxTotal : ℕ
deriving DecidableEq

/-- `defaultConfig` of `functional_strategy.js` (the variant the workflow
manager imports). -/
def defaultConfig : Config where
  minAPY := 50
  minTVL := 100000
  minRewardAPY := 20
  minRewardAPYRatio := 1/2
  newPoolAgeDays := 7
  highAPYThreshold := 200
  mediumAPYThreshold := 80
  lowTVLThreshold := 500000
  highRewardRatioThreshold := 4/5
  tvlGrowthPctThreshold := 50
  volatilitySigmaThreshold := 2
  maxRiskScore := 5
  maxPerToken := 2
  maxTotal := 10

/-- Reference statistics used to normalise profit potential
(`sampleStats`). -/
structure Stats where
  apyMin : ℝ
  apyMax : ℝ
  tvlMax : ℝ
  volRatioMax : ℝ

/-- `sampleStats` of `functional_strategy.js`. -/
noncomputable def sampleStats : Stats where
  apyMin := 0
  apyMax := 1000
  tvlMax := 10000000
  volRatioMax := 1/10

/-- A raw pool record as returned by the DeFiLlama yields API (the fields the
engine reads).  See the modelling conventions above for absent fields. -/
structure Pool where
  pool : String
  symbol : String
  project : String
  chain : String
  apy : ℚ
  tvlUsd : ℚ
  apyReward : ℚ
  rewardTokens : List String
  volumeUsd1d : ℚ
  tvlGrowthPct1d : ℚ
  sigma : ℚ
  exposure : String
  ilRisk : String
  predictedClass : String
  firstSeenAt : Option ℚ
deriving DecidableEq

/-- A record produced by `fetchNewIncentivePools`: a spread of the raw pool
record with `isNew`, `rewardRatio` and normalised `rewardTokens` attached. -/
structure DetectedPool extends Pool where
  isNew : Bool
  rewardRatio : ℚ
deriving DecidableEq

/-- A record returned by `fetchPoolById`: the raw pool with a `riskScore`
attached. -/
structure FetchedPool extends Pool where
  riskScore : ℕ
deriving DecidableEq

/-- A record produced by `enrichPoolData`: a spread of a detected / validated
pool with `riskScore` and `profitPotential` attached. -/
structure EnrichedPool extends DetectedPool where
  riskScore : ℕ
  profitPotential : ℝ

/-- `calculateRiskScore(pool, config)` of `functional_strategy.js`:

```js
let risk = 0;
if (pool.apy > 100) risk += 3;
if (pool.tvlUsd < 100_000) risk += 2;
if (( (pool.apyReward||0) / Math.max(pool.apy, 1) ) > config.highRewardRatioThreshold) risk += 2;
if (pool.exposure !== 'single') risk += 1;
if (pool.predictions?.predictedClass === 'Down') risk += 2;
if (pool.ilRisk === 'yes') risk += 1;
if (pool.sigma > config.volatilitySigmaThreshold) risk += 1;
return Math.min(risk, 10);
```
-/
def calculateRiskScore (pool : Pool) (config : Config) : ℕ :=
  let risk :=
    (if pool.apy > 100 then 3 else 0) +
    (if pool.tvlUsd < 100000 then 2 else 0) +
    (if pool.apyReward / max pool.apy 1 > config.highRewardRatioThreshold then 2 else 0) +
    (if pool.exposure ≠ "single" then 1 else 0) +
    (if pool.predictedClass = "Down" then 2 else 0) +
    (if pool.ilRisk = "yes" then 1 else 0) +
    (if pool.sigma > config.volatilitySigmaThreshold then 1 else 0)
  min risk 10

/-- `calculateProfitPotential(pool, stats)` of `functional_strategy.js`:

```js
const apy = pool.apy || 0;
const tvl = pool.tvlUsd || 0;
const vol1d = pool.volumeUsd1d || 0;
const normAPY = (apy - apyMin) / (apyMax - apyMin);
const normTVL = Math.log10(tvl + 1) / Math.log10(tvlMax);
const volumeRatio = vol1d / (tvl || 1);
return normAPY * 0.6 + normTVL * 0.3 + Math.min(volumeRatio, volRatioMax) * 0.1;
```

`tvl || 1` is `1` exactly when `tvl` is `0` (or absent), and `tvl` itself for
every other value — in particular for `0 < tvl < 1` the divisor is `tvl`,
not `1`. -/
noncomputable def calculateProfitPotential (pool : Pool) (stats : Stats) : ℝ :=
  let apy : ℝ := (pool.apy : ℝ)
  let tvl : ℝ := (pool.tvlUsd : ℝ)
  let vol1d : ℝ := (pool.volumeUsd1d : ℝ)
  let normAPY := (apy - stats.apyMin) / (stats.apyMax - stats.apyMin)
  let normTVL := Real.logb 10 (tvl + 1) / Real.logb 10 stats.tvlMax
  let volumeRatio := vol1d / (if tvl = 0 then 1 else tvl)
  normAPY * 0.6 + normTVL * 0.3 + min volumeRatio stats.volRatioMax * 0.1

/-- Modelled from the claim C10 (and spec §4.2) wording: the same profit
formula but with the volume-to-TVL divisor written `max(tvl, 1)`.  Used only
to compare against `calculateProfitPotential`. -/
noncomputable def profitPotentialClaimed (pool : Pool) (stats : Stats) : ℝ :=
  0.6 * (((pool.apy : ℝ) - stats.apyMin) / (stats.apyMax - stats.apyMin)) +
  0.3 * (Real.logb 10 ((pool.tvlUsd : ℝ) + 1) / Real.logb 10 stats.tvlMax) +
  0.1 * min ((pool.volumeUsd1d : ℝ) / max ((pool.tvlUsd : ℝ)) 1) stats.volRatioMax

/-- The C10 claim amended to match the code: the volume-to-TVL divisor is
`tvl` itself when `tvl ≠ 0` and `1` when `tvl = 0` (JavaScript `tvl || 1`),
rather than `max(tvl, 1)`. -/
noncomputable def profitPotentialAmended (pool : Pool) (stats : Stats) : ℝ :=
  0.6 * (((pool.apy : ℝ) - stats.apyMin) / (stats.apyMax - stats.apyMin)) +
  0.3 * (Real.logb 10 ((pool.tvlUsd : ℝ) + 1) / Real.logb 10 stats.tvlMax) +
  0.1 * min ((pool.volumeUsd1d : ℝ) /
      (if (pool.tvlUsd : ℝ) = 0 then 1 else (pool.tvlUsd : ℝ))) stats.volRatioMax

/-- `enrichPoolData(pools, stats, config)`: attach `riskScore` and
`profitPotential` to each pool. -/
noncomputable def enrichPoolData (pools : List DetectedPool) (stats : Stats)
    (config : Config) : List EnrichedPool :=
  pools.map (fun pool =>
    { toDetectedPool := pool
      riskScore := calculateRiskScore pool.toPool config
      profitPotential := calculateProfitPotential pool.toPool stats })

/-- The grouping key of `selectOptimalPools`:
`p.rewardTokens.length > 0 ? p.rewardTokens[0] : 'none'`. -/
def rewardTokenKey (p : EnrichedPool) : String :=
  match p.rewardTokens with
  | [] => "none"
  | t :: _ => t

/-- The comparator `(a, b) => b.profitPotential - a.profitPotential`
(descending profit potential) as a relation. -/
def profitGE (a b : EnrichedPool) : Prop :=
  b.profitPotential ≤ a.profitPotential

noncomputable instance : DecidableRel profitGE :=
  fun a b => Real.decidableLE b.profitPotential a.profitPotential

instance : IsTotal EnrichedPool profitGE :=
  ⟨fun a b => le_total b.profitPotential a.profitPotential⟩

instance : IsTrans EnrichedPool profitGE :=
  ⟨fun _ _ _ h1 h2 => le_trans h2 h1⟩

/-- The comparator `(a, b) => b.apy - a.apy` (descending APY) as a relation
on detected pools. -/
def apyGE (a b : DetectedPool) : Prop := b.apy ≤ a.apy

instance : DecidableRel apyGE :=
  fun a b => inferInstanceAs (Decidable (b.apy ≤ a.apy))

/-- `byToken[tok] = byToken[tok] || []; byToken[tok].push(p)`: insert a pool
into the bucket of its key, keeping first-insertion key order (JavaScript
object key order for string keys). -/
def addToGroup : List (String × List EnrichedPool) → String → EnrichedPool →
    List (String × List EnrichedPool)
  | [], k, p => [(k, [p])]
  | (k2, l) :: rest, k, p =>
    if k2 = k then (k2, l ++ [p]) :: rest
    else (k2, l) :: addToGroup rest k p

/-- The `byToken` grouping loop of `selectOptimalPools`. -/
def byTokenGroups (pools : List EnrichedPool) : List (String × List EnrichedPool) :=
  pools.foldl (fun m p => addToGroup m (rewardTokenKey p) p) []

/-- `selectOptimalPools(enrichedPools, config)` of `functional_strategy.js`:
drop pools over the risk ceiling, group by primary reward token, keep the
top `maxPerToken` of each group by profit potential, merge, rank again and
truncate to `maxTotal`. -/
noncomputable def selectOptimalPools (enrichedPools : List EnrichedPool)
    (config : Config) : List EnrichedPool :=
  let candidates := enrichedPools.filter (fun p => p.riskScore ≤ config.maxRiskScore)
  let byToken := byTokenGroups candidates
  let selected :=
    (byToken.map (fun g => (List.insertionSort profitGE g.2).take config.maxPerToken)).flatten
  (List.insertionSort profitGE selected).take config.maxTotal

/-- The fields `validateAndFilterNewPools` reads from each element of its
first argument: `p.pool`, `p.address`, `p.firstSeenAt`.  In the workflow
manager this argument is a list of watchlist entries, whose fields are
`poolId`, `symbol`, `project`, `firstSeen`, `isNew` — none of the three read
fields exists there, so all three are `none` at that call site. -/
structure ValidationInput where
  pool : Option String
  address : Option String
  firstSeenAt : Option ℚ
deriving DecidableEq

/-- The `Map` lookup of `validateAndFilterNewPools`: the map is built from
`allPools.map(p => [p.pool, p])` (later duplicates overwrite earlier ones)
and queried with a possibly absent key. -/
def validateLookup (allPools : List DetectedPool) (k : Option String) :
    Option DetectedPool :=
  match k with
  | none => none
  | some key => (allPools.reverse).find? (fun p => p.pool == key)

/-- The body of the `detectedPools.forEach` loop of
`validateAndFilterNewPools`: look the input up by `p.pool` then `p.address`,
re-apply the chain / APY / TVL / reward floors, and produce the validated
record (the matched data with `firstSeenAt` taken from the input and the
recomputed reward ratio).  An input that is not found is silently skipped,
and so is one failing any floor. -/
def validateOne (allPools : List DetectedPool) (config : Config)
    (p : ValidationInput) : Option DetectedPool :=
  match (validateLookup allPools p.pool).orElse (fun _ => validateLookup allPools p.address) with
  | none => none
  | some data =>
    if data.chain ≠ "Solana" ∨ data.apy < config.minAPY ∨ data.tvlUsd < config.minTVL then
      none
    else if data.apyReward < config.minRewardAPY then
      none
    else
      let rewardRatio := data.apyReward / max data.apy 1
      if rewardRatio < config.minRewardAPYRatio then
        none
      else
        some { data with
               toPool := { data.toPool with firstSeenAt := p.firstSeenAt }
               rewardRatio := rewardRatio }

/-- `validateAndFilterNewPools(detectedPools, allPools, config)` of
`functional_strategy.js`: validate each input against the just-fetched pool
data and return the survivors sorted by APY descending. -/
def validateAndFilterNewPools (detectedPools : List ValidationInput)
    (allPools : List DetectedPool) (config : Config) : List DetectedPool :=
  List.insertionSort apyGE (detectedPools.filterMap (validateOne allPools config))

/-- `fetchPoolById(poolId)` of `functional_strategy.js`, with the fetched
pool universe as an explicit parameter: find the pool by id and attach
`riskScore = calculateRiskScore(pool, defaultConfig)`.  (The source also
compares `p.address === poolId`; DeFiLlama pool records carry no `address`
field, so only `p.pool` can match.) -/
def fetchPoolById (allPools : List Pool) (poolId : String) : Option FetchedPool :=
  match allPools.find? (fun p => p.pool == poolId) with
  | none => none
  | some pool => some { toPool := pool, riskScore := calculateRiskScore pool defaultConfig }

/-- A simulated position, as created by `investFromWatchlist` in
`workflow_manager.js`.  Creation sets no `status` field; `status`,
`exitTimestamp` and `exitReason` are written only when the position exits. -/
structure Position where
  poolId : String
  symbol : String
  project : String
  entryTimestamp : ℚ
  entryApy : ℚ
  entryRisk : ℕ
  isNew : Bool
  status : Option String
  exitTimestamp : Option ℚ
  exitReason : Option String
deriving DecidableEq, Inhabited

/-- The portfolio state `{ active: [], exited: [] }`. -/
structure Portfolio where
  active : List Position
  exited : List Position
deriving DecidableEq

/-- A watchlist entry, as created by `updateWatchlist`. -/
structure WatchlistEntry where
  poolId : String
  symbol : String
  project : String
  firstSeen : ℚ
  isNew : Bool
deriving DecidableEq

/-- `HOLD_DURATION_MS = 24 * 60 * 60 * 1000`. -/
def HOLD_DURATION_MS : ℚ := 24 * 60 * 60 * 1000

/-- `MAX_ACTIVE_POSITIONS = 5`. -/
def MAX_ACTIVE_POSITIONS : ℕ := 5

/-- `MIN_WATCHLIST_AGE_MS = 15 * 60 * 1000`. -/
def MIN_WATCHLIST_AGE_MS : ℚ := 15 * 60 * 1000

/-- `MAX_RISK_SCORE = 7` (risk threshold for exit). -/
def MAX_RISK_SCORE : ℕ := 7

/-- `APY_DROP_THRESHOLD = 50`. -/
def APY_DROP_THRESHOLD : ℚ := 50

/-- The body of the `for (const pos of portfolio.active)` loop of
`checkForExits`, acting on an accumulator of (still-active positions,
newly exited positions, levels of emitted log entries).  When the current
snapshot of the pool cannot be fetched the position is kept and nothing is
logged; otherwise the time / APY-drop / risk exit conditions are evaluated
and an exit emits one `logger.info` entry.  (`hoursHeld` in the source is
used only inside a log message and is omitted.) -/
def checkForExitsStep (now : ℚ) (allPools : List Pool)
    (acc : List Position × List Position × List String) (pos : Position) :
    List Position × List Position × List String :=
  match fetchPoolById allPools pos.poolId with
  | none => (acc.1 ++ [pos], acc.2.1, acc.2.2)
  | some current =>
    let apyDrop := (pos.entryApy - current.apy) / pos.entryApy * 100
    let highRisk := decide (current.riskScore > MAX_RISK_SCORE)
    let timeExit := decide (now - pos.entryTimestamp ≥ HOLD_DURATION_MS)
    let apyExit := decide (apyDrop ≥ APY_DROP_THRESHOLD)
    if timeExit || apyExit || highRisk then
      let reason := if timeExit then "time_exit" else if apyExit then "apy_drop" else "risk_exit"
      let exitedPos := { pos with
                         status := some "exited"
                         exitTimestamp := some now
                         exitReason := some reason }
      (acc.1, acc.2.1 ++ [exitedPos], acc.2.2 ++ ["info"])
    else
      (acc.1 ++ [pos], acc.2.1, acc.2.2)

/-- `checkForExits(portfolio)` of `workflow_manager.js`, with the current
time and the fetched pool universe as explicit parameters.  Returns the
updated portfolio and the severity levels of the log entries it emitted. -/
def checkForExits (portfolio : Portfolio) (now : ℚ) (allPools : List Pool) :
    Portfolio × List String :=
  let r := portfolio.active.foldl (checkForExitsStep now allPools) ([], [], [])
  ({ active := r.1, exited := portfolio.exited ++ r.2.1 }, r.2.2)

/-- `pool.firstSeenAt || Date.now()`: the timestamp when present and nonzero,
otherwise the current time. -/
def jsOrNow (v : Option ℚ) (now : ℚ) : ℚ :=
  match v with
  | none => now
  | some t => if t = 0 then now else t

/-- `updateWatchlist(watchlist)` of `workflow_manager.js`, with the detected
pools and the current time as explicit parameters: append the first 10
detected pools whose id is not already present (the membership map is built
once, before the loop), then prune entries older than 7 days. -/
def updateWatchlist (watchlist : List WatchlistEntry) (detected : List DetectedPool)
    (now : ℚ) : List WatchlistEntry :=
  let additions := ((detected.take 10).filter
      (fun pl => ! watchlist.any (fun w => w.poolId == pl.pool))).map
    (fun pl => { poolId := pl.pool
                 symbol := pl.symbol
                 project := pl.project
                 firstSeen := jsOrNow pl.firstSeenAt now
                 isNew := pl.isNew })
  let wl1 := watchlist ++ additions
  let cutoff := now - 7 * 24 * 60 * 60 * 1000
  wl1.filter (fun p => p.firstSeen > cutoff)

/-- `active.reduce((min, p) => p.entryApy < min.entryApy ? p : min, active[0])`:
the active position with the lowest entry APY (first one wins ties).  The
source would crash on an empty array (`active[0]` is `undefined`); the loop
that calls this only does so while the portfolio is full, so the list is
never empty there.  `headI` supplies a default for the empty case. -/
def findWorstPosition (l : List Position) : Position :=
  l.foldl (fun m p => if p.entryApy < m.entryApy then p else m) l.headI

/-- The rebalancing loop of `investFromWatchlist`: while the portfolio is
full, replace the weakest active position when a candidate beats its entry
APY by more than 20 points, freeing one slot per replacement; `break` as
soon as the portfolio is below capacity. -/
def rebalanceLoop : Portfolio → ℤ → ℚ → List EnrichedPool → Portfolio × ℤ
  | p, slots, _, [] => (p, slots)
  | p, slots, now, cand :: rest =>
    if p.active.length < MAX_ACTIVE_POSITIONS then (p, slots)
    else
      let worst := findWorstPosition p.active
      if cand.apy > worst.entryApy + 20 then
        let exitedWorst := { worst with
                             status := some "exited"
                             exitTimestamp := some now
                             exitReason := some "rebalanced" }
        rebalanceLoop
          { active := p.active.filter (fun q => q.poolId != worst.poolId)
            exited := p.exited ++ [exitedWorst] }
          (slots + 1) now rest
      else rebalanceLoop p slots now rest

/-- The entry loop of `investFromWatchlist`: open a position for each
remaining candidate whose pool id is not already held. -/
def enterLoop : Portfolio → ℚ → List EnrichedPool → Portfolio
  | p, _, [] => p
  | p, now, cand :: rest =>
    if p.active.any (fun q => q.poolId == cand.pool) then enterLoop p now rest
    else
      enterLoop
        { p with active := p.active ++ [{
            poolId := cand.pool
            symbol := cand.symbol
            project := cand.project
            entryTimestamp := now
            entryApy := cand.apy
            entryRisk := cand.riskScore
            isNew := cand.isNew
            status := none
            exitTimestamp := none
            exitReason := none }] }
        now rest

/-- `array.slice(0, e)` for a possibly negative end index. -/
def jsSlice {α : Type} (l : List α) (e : ℤ) : List α :=
  if e < 0 then l.take (l.length - e.natAbs) else l.take e.toNat

/-- `investFromWatchlist(portfolio, watchlist)` of `workflow_manager.js`,
with the detected pool list (the result of the `fetchNewIncentivePools`
call) and the current time as explicit parameters.

Note the call `validateAndFilterNewPools(matured, allPools, defaultConfig)`:
`matured` is a list of watchlist entries, which carry `poolId` but none of
the fields (`pool`, `address`, `firstSeenAt`) that the validator reads, so
each lookup key is absent (`none`). -/
noncomputable def investFromWatchlist (portfolio : Portfolio)
    (watchlist : List WatchlistEntry) (allPools : List DetectedPool) (now : ℚ) :
    Portfolio :=
  let slots : ℤ := (MAX_ACTIVE_POSITIONS : ℤ) - (portfolio.active.length : ℤ)
  let matured := watchlist.filter (fun w => now - w.firstSeen ≥ MIN_WATCHLIST_AGE_MS)
  if matured.isEmpty then portfolio
  else
    let validated := validateAndFilterNewPools
      (matured.map (fun _ => ({ pool := none, address := none, firstSeenAt := none } :
        ValidationInput)))
      allPools defaultConfig
    if validated.isEmpty then portfolio
    else
      let enriched := enrichPoolData (validated.take 20) sampleStats defaultConfig
      let optimal := selectOptimalPools enriched defaultConfig
      let r := rebalanceLoop portfolio slots now optimal
      enterLoop r.1 now (jsSlice optimal r.2)

/-- The mutable state of the workflow loop: the portfolio and the
watchlist. -/
structure SimState where
  portfolio : Portfolio
  watchlist : List WatchlistEntry

/-- One call of a portfolio-lifecycle operation, with the I/O results
(current time, fetched pool data) chosen arbitrarily by the environment. -/
inductive WorkflowStep : SimState → SimState → Prop
  | exits (s : SimState) (now : ℚ) (allPools : List Pool) :
      WorkflowStep s ⟨(checkForExits s.portfolio now allPools).1, s.watchlist⟩
  | watch (s : SimState) (now : ℚ) (detected : List DetectedPool) :
      WorkflowStep s ⟨s.portfolio, updateWatchlist s.watchlist detected now⟩
  | invest (s : SimState) (now : ℚ) (allPools : List DetectedPool) :
      WorkflowStep s ⟨investFromWatchlist s.portfolio s.watchlist allPools now, s.watchlist⟩

/-- The initial state: empty portfolio, empty watchlist. -/
def initialState : SimState := ⟨⟨[], []⟩, []⟩

/-- A state is reachable when some finite sequence of `checkForExits`,
`updateWatchlist` and `investFromWatchlist` calls produces it from the
initial state. -/
def ReachableState (s : SimState) : Prop :=
  Relation.ReflTransGen WorkflowStep initialState s

/-- `PRINCIPAL_USD = YIELD_CONFIG.principalUsd = 1000`. -/
noncomputable def PRINCIPAL_USD : ℝ := 1000

/-- `DAILY_COMPOUND_RATE = YIELD_CONFIG.dailyCompoundRate = 365`. -/
noncomputable def DAILY_COMPOUND_RATE : ℝ := 365

/-- `Math.round`. -/
noncomputable def jsRound (x : ℝ) : ℝ := ⌊x + 1/2⌋

/-- `Math.round(x * 100) / 100` (two decimals). -/
noncomputable def round2 (x : ℝ) : ℝ := jsRound (x * 100) / 100

/-- `Math.round(x * 10000) / 10000` (four decimals). -/
noncomputable def round4 (x : ℝ) : ℝ := jsRound (x * 10000) / 10000

/-- The fields of a position that `calculateYield` reads.  Timestamps are
numeric epoch milliseconds. -/
structure YPosition where
  entryTimestamp : ℝ
  entryApy : ℝ

/-- The exit data argument of `calculateYield`. -/
structure ExitData where
  timestamp : ℝ
  exitApy : ℝ

/-- The record returned by `calculateYield`. -/
structure YieldResult where
  principal : ℝ
  entryApy : ℝ
  exitApy : ℝ
  avgApy : ℝ
  holdDays : ℝ
  timeInYears : ℝ
  finalAmount : ℝ
  totalReturn : ℝ
  returnPercentage : ℝ
  annualizedReturn : ℝ
  dailyReturn : ℝ
  isProfit : Prop

/-- `calculateYield(position, exitData)` of `yield-calculator.js`, with the
current time as an explicit parameter (used only when `exitData` is null).
Division by zero (JavaScript `NaN`/`Infinity` for the annualized and daily
rates of a zero-length hold) is modelled by Lean's `x / 0 = 0`; no claim
depends on those two fields. -/
noncomputable def calculateYield (position : YPosition) (exitData : Option ExitData)
    (now : ℝ) : YieldResult :=
  let exitTime := match exitData with
    | some e => e.timestamp
    | none => now
  let holdDays := (exitTime - position.entryTimestamp) / (1000 * 60 * 60 * 24)
  let avgApy := match exitData with
    | some e => (position.entryApy + e.exitApy) / 2
    | none => position.entryApy
  let principal := PRINCIPAL_USD
  let annualRate := avgApy / 100
  let compoundingFreq := DAILY_COMPOUND_RATE
  let timeInYears := holdDays / 365
  let finalAmount := principal * (1 + annualRate / compoundingFreq) ^ (compoundingFreq * timeInYears)
  let totalReturn := finalAmount - principal
  let returnPercentage := totalReturn / principal * 100
  let annualizedReturn := returnPercentage / timeInYears
  let dailyReturn := returnPercentage / holdDays
  { principal := principal
    entryApy := position.entryApy
    exitApy := match exitData with
      | some e => if e.exitApy = 0 then position.entryApy else e.exitApy
      | none => position.entryApy
    avgApy := avgApy
    holdDays := round2 holdDays
    timeInYears := round4 timeInYears
    finalAmount := round2 finalAmount
    totalReturn := round2 totalReturn
    returnPercentage := round2 returnPercentage
    annualizedReturn := round2 annualizedReturn
    dailyReturn := round4 dailyReturn
    isProfit := totalReturn > 0 }

/-- Modelled from the spec (§4.6): the midpoint of entry and exit APY. -/
noncomputable def yieldSpecAvgApy (position : YPosition) (exitData : ExitData) : ℝ :=
  (position.entryApy + exitData.exitApy) / 2

/-- Modelled from the spec (§4.6): the hold duration in days,
`(exitTime − entryTime) / (86400·1000)`. -/
noncomputable def yieldSpecHoldDays (position : YPosition) (exitData : ExitData) : ℝ :=
  (exitData.timestamp - position.entryTimestamp) / (86400 * 1000)

/-- Modelled from the spec (§4.6): `P·(1 + r/n)^(n·t)` with `P = 1000`,
`r = avgApy/100`, `n = 365`, `t = holdDays/365`. -/
noncomputable def yieldSpecFinalAmount (position : YPosition) (exitData : ExitData) : ℝ :=
  1000 * (1 + (yieldSpecAvgApy position exitData / 100) / 365) ^
    (365 * (yieldSpecHoldDays position exitData / 365))

/-- The concrete pool of the C2 scenario:
`{apy: 250, tvlUsd: 40000, apyReward: 200, rewardTokens: ["X"]}`, all other
fields absent. -/
def c2Pool : Pool where
  pool := "c2-pool"
  symbol := "C2"
  project := "c2-project"
  chain := "Solana"
  apy := 250
  tvlUsd := 40000
  apyReward := 200
  rewardTokens := ["X"]
  volumeUsd1d := 0
  tvlGrowthPct1d := 0
  sigma := 0
  exposure := ""
  ilRisk := ""
  predictedClass := ""
  firstSeenAt := none

/-- A concrete pool with `tvlUsd` strictly between 0 and 1 and nonzero
volume, on which `tvl || 1` (divisor `1/2`) and `max(tvl, 1)` (divisor `1`)
give different volume ratios: `0.08` versus `0.04`, both below the `0.1`
cap. -/
def c10Pool : Pool where
  pool := "c10-pool"
  symbol := "C10"
  project := "c10-project"
  chain := "Solana"
  apy := 100
  tvlUsd := 1/2
  apyReward := 0
  rewardTokens := []
  volumeUsd1d := 1/25
  tvlGrowthPct1d := 0
  sigma := 0
  exposure := ""
  ilRisk := ""
  predictedClass := ""
  firstSeenAt := none

/-- A concrete pool whose APY lies far above the reference window, showing
the score is not clamped to `[0, 1]`. -/
def c10BigPool : Pool where
  pool := "c10-big"
  symbol := "BIG"
  project := "big-project"
  chain := "Solana"
  apy := 10000
  tvlUsd := 0
  apyReward := 0
  rewardTokens := []
  volumeUsd1d := 0
  tvlGrowthPct1d := 0
  sigma := 0
  exposure := ""
  ilRisk := ""
  predictedClass := ""
  firstSeenAt := none

/-- A concrete active position entered at APY 80 at time 0. -/
def c3Position : Position where
  poolId := "pool-a"
  symbol := "A"
  project := "proj-a"
  entryTimestamp := 0
  entryApy := 80
  entryRisk := 3
  isNew := true
  status := none
  exitTimestamp := none
  exitReason := none

/-- A portfolio holding only `c3Position`. -/
def c3Portfolio : Portfolio := ⟨[c3Position], []⟩

/-- 25 hours in milliseconds: past the 24-hour hold duration of
`c3Position`. -/
def c3Now : ℚ := 25 * 60 * 60 * 1000

/-- A helper to build the five held positions of the C4 scenario. -/
def c4HeldPosition (id : String) (apy : ℚ) : Position where
  poolId := id
  symbol := id
  project := "proj"
  entryTimestamp := 0
  entryApy := apy
  entryRisk := 1
  isNew := false
  status := none
  exitTimestamp := none
  exitReason := none

/-- A full portfolio: five active positions with entry APYs 50–90; the
weakest has entry APY 50. -/
def c4Portfolio : Portfolio :=
  ⟨[c4HeldPosition "held-1" 50, c4HeldPosition "held-2" 60, c4HeldPosition "held-3" 70,
    c4HeldPosition "held-4" 80, c4HeldPosition "held-5" 90], []⟩

/-- A watchlist entry first seen at time 0 (matured well past 15 minutes at
`c4Now`). -/
def c4WatchEntry : WatchlistEntry where
  poolId := "new-pool"
  symbol := "NEW"
  project := "proj-new"
  firstSeen := 0
  isNew := true

/-- The candidate pool of the C4 scenario: APY 75 = 25 points above the
weakest held entry APY of 50, and passing every validation floor and the
risk ceiling of the default configuration. -/
def c4Candidate : DetectedPool where
  pool := "new-pool"
  symbol := "NEW"
  project := "proj-new"
  chain := "Solana"
  apy := 75
  tvlUsd := 200000
  apyReward := 60
  rewardTokens := ["R"]
  volumeUsd1d := 0
  tvlGrowthPct1d := 0
  sigma := 0
  exposure := "single"
  ilRisk := ""
  predictedClass := ""
  firstSeenAt := some 1
  isNew := true
  rewardRatio := 60/75

/-- 16 minutes in milliseconds: `c4WatchEntry` is matured then. -/
def c4Now : ℚ := 16 * 60 * 1000

/-- The concrete position of the C8 counterexample: entered at epoch 0. -/
def c8Position : YPosition := ⟨0, 50⟩

/-- Exit data one millisecond after entry. -/
def c8Exit : ExitData := ⟨1, 50⟩

/-! ## Helper lemmas -/

/-- The per-element validator rejects an input whose lookup keys are both
absent, since the `Map` lookup cannot match. -/
theorem validateAndFilterNewPools_none_keys (l : List WatchlistEntry)
    (allPools : List DetectedPool) (config : Config) :
    validateAndFilterNewPools
      (l.map (fun _ => ({ pool := none, address := none, firstSeenAt := none } :
        ValidationInput)))
      allPools config = [] := by
  unfold validateAndFilterNewPools
  rw [List.filterMap_map]
  have h : List.filterMap
      (validateOne allPools config ∘ fun _ : WatchlistEntry =>
        ({ pool := none, address := none, firstSeenAt := none } : ValidationInput))
      l = [] :=
    List.filterMap_eq_nil_iff.mpr (fun a _ => rfl)
  rw [h]
  rfl

/-- `investFromWatchlist` never changes the portfolio: the watchlist entries
it validates carry their pool id in `poolId`, but the validator reads
`p.pool` / `p.address`, so validation always comes back empty and the
function returns before the rebalancing and entry loops. -/
theorem investFromWatchlist_eq (portfolio : Portfolio) (watchlist : List WatchlistEntry)
    (allPools : List DetectedPool) (now : ℚ) :
    investFromWatchlist portfolio watchlist allPools now = portfolio := by
  simp only [investFromWatchlist, validateAndFilterNewPools_none_keys,
    List.isEmpty_nil, if_true, ite_self]

/-- Each step of the exit loop grows the still-active accumulator by at most
one position. -/
theorem checkForExitsStep_length_le (now : ℚ) (allPools : List Pool)
    (acc : List Position × List Position × List String) (pos : Position) :
    (checkForExitsStep now allPools acc pos).1.length ≤ acc.1.length + 1 := by
  unfold checkForExitsStep
  cases fetchPoolById allPools pos.poolId with
  | none => simp
  | some current =>
    dsimp only
    split
    · simp
    · simp

/-- The exit loop keeps at most one still-active position per input
position. -/
theorem checkForExits_foldl_length (now : ℚ) (allPools : List Pool) :
    ∀ (l : List Position) (acc : List Position × List Position × List String),
      ((l.foldl (checkForExitsStep now allPools) acc).1).length ≤ acc.1.length + l.length := by
  intro l
  induction l with
  | nil => intro acc; simp
  | cons p t ih =>
    intro acc
    rw [List.foldl_cons]
    have h1 := ih (checkForExitsStep now allPools acc p)
    have h2 := checkForExitsStep_length_le now allPools acc p
    simp only [List.length_cons]
    omega

/-- `checkForExits` never grows the active set. -/
theorem checkForExits_active_length (portfolio : Portfolio) (now : ℚ)
    (allPools : List Pool) :
    ((checkForExits portfolio now allPools).1.active).length ≤ portfolio.active.length := by
  unfold checkForExits
  simpa using checkForExits_foldl_length now allPools portfolio.active ([], [], [])

/-- C1: in every state reachable from the empty portfolio by any sequence of
`checkForExits`, `updateWatchlist` and `investFromWatchlist` calls, the
number of active positions never exceeds `MAX_ACTIVE_POSITIONS` (5). -/
theorem c1_active_positions_never_exceed_max :
    ∀ s : SimState, ReachableState s →
      s.portfolio.active.length ≤ MAX_ACTIVE_POSITIONS := by
  intro s h
  unfold ReachableState at h
  induction h with
  | refl => decide
  | tail hst hstep ih =>
    cases hstep with
    | exits now allPools =>
      exact le_trans (checkForExits_active_length _ now allPools) ih
    | watch now detected => exact ih
    | invest now allPools =>
      simpa [investFromWatchlist_eq] using ih

/-- Witness for C1 at the state reached by one `checkForExits` step from the
initial state. -/
theorem c1_active_positions_never_exceed_max_witness :
    (SimState.mk (checkForExits initialState.portfolio 0 []).1 initialState.watchlist).portfolio.active.length
      ≤ MAX_ACTIVE_POSITIONS :=
  c1_active_positions_never_exceed_max _
    (Relation.ReflTransGen.single (WorkflowStep.exits initialState 0 []))

/-- C4 (code evaluated at the failing input): with a full portfolio whose
weakest position has entry APY 50, a matured watchlist entry, and fetched
pool data containing a fully valid candidate at APY 75 (25 points above the
weakest, beyond the 20-point margin), `investFromWatchlist` leaves the
portfolio completely unchanged: no position exits with reason `rebalanced`
and no position is opened, because the watchlist entries passed to
`validateAndFilterNewPools` carry their id in `poolId` while the validator
looks up `p.pool` / `p.address`, so validation returns empty and the
function returns before the rebalancing loop. -/
theorem c4_rebalance_never_happens :
    c4Portfolio.active.length = MAX_ACTIVE_POSITIONS ∧
    c4Candidate.apy > (findWorstPosition c4Portfolio.active).entryApy + 20 ∧
    c4Now - c4WatchEntry.firstSeen ≥ MIN_WATCHLIST_AGE_MS ∧
    investFromWatchlist c4Portfolio [c4WatchEntry] [c4Candidate] c4Now = c4Portfolio := by
  refine ⟨rfl, ?_, ?_, investFromWatchlist_eq c4Portfolio [c4WatchEntry] [c4Candidate] c4Now⟩
  · norm_num [c4Candidate, findWorstPosition, c4Portfolio, c4HeldPosition]
  · norm_num [c4Now, c4WatchEntry, MIN_WATCHLIST_AGE_MS]

/-- C5: running `investFromWatchlist` twice in succession with the same
watchlist and the same fetched pool data never yields two active positions
sharing a pool id: if the active pool ids start without duplicates, they
still have no duplicates after both runs. -/
theorem c5_invest_twice_no_duplicate
    (portfolio : Portfolio) (watchlist : List WatchlistEntry)
    (allPools : List DetectedPool) (now : ℚ)
    (h : (portfolio.active.map Position.poolId).Nodup) :
    (((investFromWatchlist (investFromWatchlist portfolio watchlist allPools now)
        watchlist allPools now).active).map Position.poolId).Nodup := by
  rw [investFromWatchlist_eq, investFromWatchlist_eq]
  exact h

/-- Witness for C5 at the full five-position portfolio, matured watchlist
entry and valid candidate of the C4 scenario. -/
theorem c5_invest_twice_no_duplicate_witness :
    (((investFromWatchlist (investFromWatchlist c4Portfolio [c4WatchEntry] [c4Candidate] c4Now)
        [c4WatchEntry] [c4Candidate] c4Now).active).map Position.poolId).Nodup :=
  c5_invest_twice_no_duplicate c4Portfolio [c4WatchEntry] [c4Candidate] c4Now (by decide)

/-- C2 (counterexample): on the pool
`{apy: 250, tvlUsd: 40000, apyReward: 200, rewardTokens: ["X"]}` with the
default configuration, `calculateRiskScore` does NOT return 7: the reward
ratio `200/250 = 0.8` is compared with a strict `>` against the threshold
`0.8` and adds nothing, while the absent `exposure` field differs from
`'single'` and adds 1, so the score is `3 + 2 + 1 = 6`. -/
theorem c2_riskScore_ne_seven : calculateRiskScore c2Pool defaultConfig ≠ 7 := by
  norm_num [calculateRiskScore, c2Pool, defaultConfig]
  all_goals decide

/-- C2 (amended): on the scenario pool with the default configuration,
`calculateRiskScore` returns exactly the integer 6 (+3 for `apy > 100`,
+2 for `tvlUsd < 100000`, +0 for the reward ratio `0.8` which is not
strictly greater than the `0.8` threshold, and +1 for the absent `exposure`
field, which is not `'single'`). -/
theorem c2_riskScore_eq_six : calculateRiskScore c2Pool defaultConfig = 6 := by
  norm_num [calculateRiskScore, c2Pool, defaultConfig]
  all_goals decide

/-- C7: for every pool and configuration, `calculateRiskScore` returns an
integer in `[0, 10]`, and it is a deterministic pure function of the pool
record and the configuration alone: two calls on equal inputs return equal
scores. -/
theorem c7_riskScore_bounded_pure :
    ∀ (pool : Pool) (config : Config),
      calculateRiskScore pool config ≤ 10 ∧
      (∀ (pool2 : Pool) (config2 : Config),
        pool = pool2 → config = config2 →
        calculateRiskScore pool config = calculateRiskScore pool2 config2) := by
  intro pool config
  refine ⟨Nat.min_le_right _ _, ?_⟩
  intro pool2 config2 hp hc
  rw [hp, hc]

/-- Witness for C7 at the concrete scenario pool and default configuration. -/
theorem c7_riskScore_bounded_pure_witness :
    calculateRiskScore c2Pool defaultConfig ≤ 10 ∧
    calculateRiskScore c2Pool defaultConfig = calculateRiskScore c2Pool defaultConfig :=
  ⟨(c7_riskScore_bounded_pure c2Pool defaultConfig).1,
   (c7_riskScore_bounded_pure c2Pool defaultConfig).2 c2Pool defaultConfig rfl rfl⟩

/-- When the current pool snapshot cannot be fetched, the exit-loop body
keeps the position and logs nothing. -/
theorem checkForExitsStep_none (now : ℚ) (allPools : List Pool)
    (acc : List Position × List Position × List String) (pos : Position)
    (h : fetchPoolById allPools pos.poolId = none) :
    checkForExitsStep now allPools acc pos = (acc.1 ++ [pos], acc.2.1, acc.2.2) := by
  unfold checkForExitsStep
  rw [h]

/-- Each exit-loop step either keeps the position (logging nothing) or exits
it (logging one info-level entry). -/
theorem checkForExitsStep_cases (now : ℚ) (allPools : List Pool)
    (acc : List Position × List Position × List String) (pos : Position) :
    ((checkForExitsStep now allPools acc pos).1 = acc.1 ++ [pos] ∧
      (checkForExitsStep now allPools acc pos).2.2 = acc.2.2) ∨
    ((checkForExitsStep now allPools acc pos).1 = acc.1 ∧
      (checkForExitsStep now allPools acc pos).2.2 = acc.2.2 ++ ["info"]) := by
  unfold checkForExitsStep
  cases fetchPoolById allPools pos.poolId with
  | none => exact Or.inl ⟨rfl, rfl⟩
  | some current =>
    dsimp only
    split
    · exact Or.inr ⟨rfl, rfl⟩
    · exact Or.inl ⟨rfl, rfl⟩

/-- A position whose snapshot cannot be fetched survives the whole exit
loop unchanged. -/
theorem checkForExits_foldl_mem (now : ℚ) (allPools : List Pool) (pos : Position) :
    ∀ (l : List Position) (acc : List Position × List Position × List String),
      (pos ∈ acc.1 ∨ (pos ∈ l ∧ fetchPoolById allPools pos.poolId = none)) →
      pos ∈ (l.foldl (checkForExitsStep now allPools) acc).1 := by
  intro l
  induction l with
  | nil =>
    intro acc h
    rcases h with h | ⟨h, _⟩
    · simpa using h
    · simp at h
  | cons p t ih =>
    intro acc h
    rw [List.foldl_cons]
    apply ih
    rcases h with hacc | ⟨hmem, hnone⟩
    · left
      rcases checkForExitsStep_cases now allPools acc p with ⟨h1, _⟩ | ⟨h1, _⟩
      · rw [h1]; exact List.mem_append_left _ hacc
      · rw [h1]; exact hacc
    · rcases List.mem_cons.mp hmem with heq | hmem2
      · left
        subst heq
        rw [checkForExitsStep_none now allPools acc pos hnone]
        exact List.mem_append_right _ (List.mem_singleton.mpr rfl)
      · exact Or.inr ⟨hmem2, hnone⟩

/-- Every log entry the exit loop emits is info-level. -/
theorem checkForExits_foldl_levels (now : ℚ) (allPools : List Pool) :
    ∀ (l : List Position) (acc : List Position × List Position × List String),
      (∀ lv ∈ acc.2.2, lv = "info") →
      ∀ lv ∈ (l.foldl (checkForExitsStep now allPools) acc).2.2, lv = "info" := by
  intro l
  induction l with
  | nil => intro acc h; simpa using h
  | cons p t ih =>
    intro acc h
    rw [List.foldl_cons]
    apply ih
    rcases checkForExitsStep_cases now allPools acc p with ⟨_, h2⟩ | ⟨_, h2⟩
    · rw [h2]; exact h
    · rw [h2]
      intro lv hlv
      rcases List.mem_append.mp hlv with h3 | h3
      · exact h lv h3
      · simpa using h3

/-- C3 (amended): in `checkForExits`, every active position whose current
pool snapshot cannot be fetched is retained unchanged in the active set (the
very same record, so no exit occurs and no field is modified), regardless
of whether its hold duration has elapsed; however NO warning-level log entry
is emitted — the skip is silent, and every entry `checkForExits` does emit
is info-level. -/
theorem c3_fetch_miss_retains_position :
    ∀ (portfolio : Portfolio) (now : ℚ) (allPools : List Pool) (pos : Position),
      pos ∈ portfolio.active →
      fetchPoolById allPools pos.poolId = none →
      pos ∈ (checkForExits portfolio now allPools).1.active ∧
      ∀ lv ∈ (checkForExits portfolio now allPools).2, lv = "info" := by
  intro portfolio now allPools pos hmem hnone
  constructor
  · exact checkForExits_foldl_mem now allPools pos portfolio.active ([], [], [])
      (Or.inr ⟨hmem, hnone⟩)
  · exact checkForExits_foldl_levels now allPools portfolio.active ([], [], []) (by simp)

/-- C3 (counterexample): a position entered at APY 80 whose hold duration
has elapsed at `c3Now` (25 h), with the pool fetch returning null, is
re-evaluated: the claim says a warning-level log entry is emitted, but
`checkForExits` emits no log entry at all on this input. -/
theorem c3_silent_skip_counterexample :
    c3Now - c3Position.entryTimestamp ≥ HOLD_DURATION_MS ∧
    (checkForExits c3Portfolio c3Now []).2 = [] := by
  constructor
  · norm_num [c3Now, c3Position, HOLD_DURATION_MS]
  · rfl

/-- Witness for C3 (amended) at the concrete elapsed-hold position with a
failing fetch. -/
theorem c3_fetch_miss_retains_position_witness :
    c3Position ∈ (checkForExits c3Portfolio c3Now []).1.active ∧
    ∀ lv ∈ (checkForExits c3Portfolio c3Now []).2, lv = "info" :=
  c3_fetch_miss_retains_position c3Portfolio c3Now [] c3Position (by decide) rfl

/-- Rounding to cents commutes with subtracting the (integral) principal. -/
theorem round2_sub_1000 (x : ℝ) : round2 (x - 1000) = round2 x - 1000 := by
  unfold round2 jsRound
  have h : (x - 1000) * 100 + 1/2 = (x * 100 + 1/2) - ((100000 : ℤ) : ℝ) := by
    push_cast
    ring
  rw [h, Int.floor_sub_int]
  push_cast
  ring

/-- C9: for every position, `calculateYield(position, {timestamp:
entryTimestamp, exitApy: entryApy})` returns `holdDays = 0` and
`totalReturn = 0`. -/
theorem c9_yield_roundtrip :
    ∀ (position : YPosition) (now : ℝ),
      (calculateYield position (some ⟨position.entryTimestamp, position.entryApy⟩) now).holdDays = 0 ∧
      (calculateYield position (some ⟨position.entryTimestamp, position.entryApy⟩) now).totalReturn = 0 := by
  intro position now
  constructor
  · simp [calculateYield, round2, jsRound]
    norm_num
  · simp [calculateYield, round2, jsRound, Real.rpow_zero]
    norm_num

/-- C8 (counterexample): for the position entered at epoch 0 and exit data
at timestamp 1 (one millisecond later), the returned `holdDays` field is
`0`, not the exact value `(exitTime − entryTime)/(86400·1000) =
1/86400000`: the returned fields are rounded. -/
theorem c8_holdDays_counterexample :
    (calculateYield c8Position (some c8Exit) 0).holdDays ≠
      (c8Exit.timestamp - c8Position.entryTimestamp) / (86400 * 1000) := by
  have hL : (calculateYield c8Position (some c8Exit) 0).holdDays = 0 := by
    simp [calculateYield, c8Position, c8Exit, round2, jsRound]
    norm_num
  rw [hL, c8Exit, c8Position]
  norm_num

/-- C8 (amended): for every position and exit data, `calculateYield`
computes exactly the spec §4.6 quantities — `avgApy = (entryApy +
exitApy)/2` (returned as is), `holdDays = (exitTime − entryTime)/(86400·
1000)` and `finalAmount = 1000·(1 + (avgApy/100)/365)^(365·(holdDays/365))`
(each returned rounded to 2 decimals), with `principal = 1000` — and the
returned `totalReturn` equals the returned `finalAmount` minus the
principal. -/
theorem c8_calculateYield_formulas :
    ∀ (position : YPosition) (exitData : ExitData) (now : ℝ),
      (calculateYield position (some exitData) now).principal = 1000 ∧
      (calculateYield position (some exitData) now).avgApy =
        yieldSpecAvgApy position exitData ∧
      (calculateYield position (some exitData) now).holdDays =
        round2 (yieldSpecHoldDays position exitData) ∧
      (calculateYield position (some exitData) now).finalAmount =
        round2 (yieldSpecFinalAmount position exitData) ∧
      (calculateYield position (some exitData) now).totalReturn =
        (calculateYield position (some exitData) now).finalAmount - 1000 := by
  intro position exitData now
  have hden : (1000 * 60 * 60 * 24 : ℝ) = 86400 * 1000 := by norm_num
  refine ⟨rfl, rfl, ?_, ?_, ?_⟩
  · simp only [calculateYield, yieldSpecHoldDays]
    rw [hden]
  · simp only [calculateYield, yieldSpecFinalAmount, yieldSpecAvgApy, yieldSpecHoldDays,
      PRINCIPAL_USD, DAILY_COMPOUND_RATE]
    rw [hden]
  · simp only [calculateYield, PRINCIPAL_USD]
    exact round2_sub_1000 _

/-- C10 (counterexample): on the pool with `tvlUsd = 1/2` and
`volumeUsd1d = 1/25`, the code (divisor `tvl || 1 = 1/2`, ratio `0.08`)
differs from the claimed formula (divisor `max(tvl, 1) = 1`, ratio `0.04`):
the two profit potentials differ by `0.1·(0.08 − 0.04) = 1/250`. -/
theorem c10_profit_divisor_counterexample :
    calculateProfitPotential c10Pool sampleStats ≠
      profitPotentialClaimed c10Pool sampleStats := by
  have hdiff : calculateProfitPotential c10Pool sampleStats -
      profitPotentialClaimed c10Pool sampleStats = 1/250 := by
    simp only [calculateProfitPotential, profitPotentialClaimed, c10Pool, sampleStats]
    norm_num [min_def, max_def]
    ring
  intro he
  rw [he, sub_self] at hdiff
  norm_num at hdiff

/-- C10 (amended): for every pool and stats reference,
`calculateProfitPotential` returns exactly
`0.6·(apy − apyMin)/(apyMax − apyMin) + 0.3·log10(tvl+1)/log10(tvlMax) +
0.1·min(volume/d, capRatio)` where the divisor `d` is `tvl` itself when
`tvl ≠ 0` and `1` when `tvl = 0` (JavaScript `tvl || 1`, not `max(tvl,1)`);
absent numeric fields enter as 0.  The result is not clamped to `[0, 1]`:
a pool with APY far above the reference window scores above 1. -/
theorem c10_profitPotential_formula :
    (∀ (pool : Pool) (stats : Stats),
      calculateProfitPotential pool stats = profitPotentialAmended pool stats) ∧
    ∃ pool : Pool, calculateProfitPotential pool sampleStats > 1 := by
  constructor
  · intro pool stats
    simp only [calculateProfitPotential, profitPotentialAmended]
    ring
  · refine ⟨c10BigPool, ?_⟩
    norm_num [calculateProfitPotential, c10BigPool, sampleStats, min_def, Real.logb_one]

/-- An element of the first `n` of a sorted list is an element of the
original list. -/
theorem mem_take_insertionSort {l : List EnrichedPool} {n : ℕ} {p : EnrichedPool}
    (h : p ∈ (List.insertionSort profitGE l).take n) : p ∈ l :=
  (List.perm_insertionSort profitGE l).subset ((List.take_sublist n _).subset h)

/-- Sorting then truncating does not increase the count of any predicate. -/
theorem countP_take_insertionSort (l : List EnrichedPool) (pr : EnrichedPool → Bool)
    (n : ℕ) :
    ((List.insertionSort profitGE l).take n).countP pr ≤ l.countP pr :=
  le_trans (List.Sublist.countP_le pr (List.take_sublist n _))
    (le_of_eq ((List.perm_insertionSort profitGE l).countP_eq pr))

/-- Inserting into the token groups appends the key when it is new and keeps
the key list otherwise. -/
theorem addToGroup_map_fst (m : List (String × List EnrichedPool)) (k : String)
    (p : EnrichedPool) :
    (addToGroup m k p).map Prod.fst =
      if k ∈ m.map Prod.fst then m.map Prod.fst else m.map Prod.fst ++ [k] := by
  induction m with
  | nil => simp [addToGroup]
  | cons g rest ih =>
    obtain ⟨k2, l⟩ := g
    by_cases hk : k2 = k
    · subst hk
      simp [addToGroup]
    · by_cases hm : k ∈ rest.map Prod.fst
      · simp [addToGroup, hk, ih, hm, Ne.symm hk]
      · simp [addToGroup, hk, ih, hm, Ne.symm hk]

/-- Inserting into the token groups preserves distinctness of the keys. -/
theorem addToGroup_fst_nodup (m : List (String × List EnrichedPool)) (k : String)
    (p : EnrichedPool) (h : (m.map Prod.fst).Nodup) :
    ((addToGroup m k p).map Prod.fst).Nodup := by
  rw [addToGroup_map_fst]
  split
  · exact h
  · simp only [List.nodup_append, List.nodup_cons]
    refine ⟨h, by simp, ?_⟩
    intro a ha hb
    simp only [List.mem_singleton] at hb
    subst hb
    exact absurd ha (by assumption)

/-- Inserting a pool satisfying `Q k` into the token groups preserves the
per-bucket invariant `Q`. -/
theorem addToGroup_buckets (Q : String → EnrichedPool → Prop) (k : String)
    (p : EnrichedPool) (hp : Q k p) :
    ∀ (m : List (String × List EnrichedPool)),
      (∀ g ∈ m, ∀ q ∈ g.2, Q g.1 q) →
      ∀ g ∈ addToGroup m k p, ∀ q ∈ g.2, Q g.1 q := by
  intro m
  induction m with
  | nil =>
    intro _ g hg q hq
    simp only [addToGroup, List.mem_singleton] at hg
    subst hg
    simp only [List.mem_singleton] at hq
    subst hq
    exact hp
  | cons g0 rest ih =>
    obtain ⟨k2, l⟩ := g0
    intro hm g hg q hq
    unfold addToGroup at hg
    by_cases hk : k2 = k
    · subst hk
      rw [if_pos rfl, List.mem_cons] at hg
      rcases hg with hg | hg
      · subst hg
        rcases List.mem_append.mp hq with h2 | h2
        · exact hm (k2, l) (by simp) q h2
        · simp only [List.mem_singleton] at h2
          subst h2
          exact hp
      · exact hm g (List.mem_cons.mpr (Or.inr hg)) q hq
    · rw [if_neg hk, List.mem_cons] at hg
      rcases hg with hg | hg
      · subst hg
        exact hm (k2, l) (by simp) q hq
      · exact ih (fun g2 hg2 => hm g2 (List.mem_cons.mpr (Or.inr hg2))) g hg q hq

/-- The grouping fold keeps keys distinct and keeps every bucket element
keyed by its own reward token, drawn from the input. -/
theorem byTokenGroups_inv (P : EnrichedPool → Prop) :
    ∀ (l : List EnrichedPool) (m : List (String × List EnrichedPool)),
      (∀ p ∈ l, P p) →
      ((m.map Prod.fst).Nodup ∧ ∀ g ∈ m, ∀ q ∈ g.2, rewardTokenKey q = g.1 ∧ P q) →
      (((l.foldl (fun m p => addToGroup m (rewardTokenKey p) p) m).map Prod.fst).Nodup ∧
        ∀ g ∈ l.foldl (fun m p => addToGroup m (rewardTokenKey p) p) m,
          ∀ q ∈ g.2, rewardTokenKey q = g.1 ∧ P q) := by
  intro l
  induction l with
  | nil => intro m _ hm; simpa using hm
  | cons p t ih =>
    intro m hl hm
    rw [List.foldl_cons]
    apply ih
    · intro q hq
      exact hl q (by simp [hq])
    · refine ⟨addToGroup_fst_nodup m (rewardTokenKey p) p hm.1, ?_⟩
      exact addToGroup_buckets (fun k q => rewardTokenKey q = k ∧ P q) (rewardTokenKey p) p
        ⟨rfl, hl p (by simp)⟩ m hm.2

/-- The invariants of `byTokenGroups`. -/
theorem byTokenGroups_spec (l : List EnrichedPool) (P : EnrichedPool → Prop)
    (hl : ∀ p ∈ l, P p) :
    ((byTokenGroups l).map Prod.fst).Nodup ∧
    ∀ g ∈ byTokenGroups l, ∀ q ∈ g.2, rewardTokenKey q = g.1 ∧ P q :=
  byTokenGroups_inv P l [] hl (by simp)

/-- Across buckets with distinct keys, at most `n` selected pools share any
given reward-token key, because only the (at most one) bucket of that key
contributes and its contribution is truncated to `n`. -/
theorem countP_flatten_buckets (t : String) (n : ℕ) :
    ∀ (L : List (String × List EnrichedPool)),
      (L.map Prod.fst).Nodup →
      (∀ g ∈ L, ∀ q ∈ g.2, rewardTokenKey q = g.1) →
      ((L.map (fun g => (List.insertionSort profitGE g.2).take n)).flatten.countP
        (fun p => rewardTokenKey p = t)) ≤ n := by
  intro L
  induction L with
  | nil => intro _ _; simp
  | cons g rest ih =>
    intro hnd hb
    rw [List.map_cons, List.flatten_cons, List.countP_append]
    have hndr : (rest.map Prod.fst).Nodup := by
      rw [List.map_cons, List.nodup_cons] at hnd
      exact hnd.2
    have hkey : g.1 ∉ rest.map Prod.fst := by
      rw [List.map_cons, List.nodup_cons] at hnd
      exact hnd.1
    by_cases hk : g.1 = t
    · have h1 : ((List.insertionSort profitGE g.2).take n).countP
          (fun p => rewardTokenKey p = t) ≤ n :=
        le_trans (List.countP_le_length _) (List.length_take_le n _)
      have h2 : ((rest.map (fun g => (List.insertionSort profitGE g.2).take n)).flatten.countP
          (fun p => rewardTokenKey p = t)) = 0 := by
        rw [List.countP_eq_zero]
        intro q hq
        obtain ⟨lq, hlq, hql⟩ := List.mem_flatten.mp hq
        obtain ⟨g2, hg2, rfl⟩ := List.mem_map.mp hlq
        have hq2 := hb g2 (by simp [hg2]) q (mem_take_insertionSort hql)
        have hne : g2.1 ≠ t := by
          intro heq
          apply hkey
          rw [hk, ← heq]
          exact List.mem_map.mpr ⟨g2, hg2, rfl⟩
        simp [hq2, hne]
      omega
    · have h1 : ((List.insertionSort profitGE g.2).take n).countP
          (fun p => rewardTokenKey p = t) = 0 := by
        rw [List.countP_eq_zero]
        intro q hq
        have := hb g (by simp) q (mem_take_insertionSort hq)
        simp [this, hk]
      have h2 := ih hndr (fun g2 hg2 => hb g2 (by simp [hg2]))
      omega

/-- C6: for every input list of enriched pools and every configuration, the
output of `selectOptimalPools` contains no pool with a risk score above
`maxRiskScore`, contains at most `maxPerToken` pools sharing any primary
reward-token key (pools without reward tokens sharing the `"none"` bucket),
contains at most `maxTotal` pools, and is sorted by `profitPotential`
descending. -/
theorem c6_selectOptimalPools_spec :
    ∀ (enrichedPools : List EnrichedPool) (config : Config),
      (∀ p ∈ selectOptimalPools enrichedPools config,
        p.riskScore ≤ config.maxRiskScore) ∧
      (∀ t : String,
        ((selectOptimalPools enrichedPools config).filter
          (fun p => rewardTokenKey p = t)).length ≤ config.maxPerToken) ∧
      (selectOptimalPools enrichedPools config).length ≤ config.maxTotal ∧
      List.Pairwise (fun a b => b.profitPotential ≤ a.profitPotential)
        (selectOptimalPools enrichedPools config) := by
  intro pools config
  have hginv := byTokenGroups_spec
    (pools.filter (fun p => p.riskScore ≤ config.maxRiskScore))
    (fun p => p ∈ pools.filter (fun p => p.riskScore ≤ config.maxRiskScore))
    (fun p hp => hp)
  refine ⟨?_, ?_, ?_, ?_⟩
  · intro p hp
    have hp2 := mem_take_insertionSort hp
    obtain ⟨lq, hlq, hpl⟩ := List.mem_flatten.mp hp2
    obtain ⟨g, hg, rfl⟩ := List.mem_map.mp hlq
    have hpg : p ∈ g.2 := mem_take_insertionSort hpl
    have hpc := (hginv.2 g hg p hpg).2
    simpa using List.of_mem_filter hpc
  · intro t
    rw [← List.countP_eq_length_filter]
    exact le_trans
      (countP_take_insertionSort _ _ config.maxTotal)
      (le_trans
        (le_of_eq rfl)
        (countP_flatten_buckets t config.maxPerToken _ hginv.1
          (fun g hg q hq => (hginv.2 g hg q hq).1)))
  · exact List.length_take_le _ _
  · exact List.Pairwise.sublist (List.take_sublist _ _)
      (List.sorted_insertionSort profitGE _)
